import Mathlib

/-!
Verification development for the Galdr interceptor frontend (Electron + React).

The definitions below are a shallow embedding of the renderer service classes
(ProxyManager, CrawlerManager, ReconManager, CartographerManager,
ReplayForgeManager, RaiderManager, PortalManager), the Raider view component,
the App view, and the Electron IPC bridge.  Stateful TypeScript classes become
explicit state records with step functions; `fetch` results become an explicit
outcome type; JSON values become a small inductive type.
-/

namespace Galdr

/-- Minimal model of a JavaScript JSON value, used for request/response bodies
and WebSocket message payloads. -/
inductive Json where
  | null : Json
  | bool : Bool → Json
  | num : Int → Json
  | str : String → Json
  | arr : List Json → Json
  | obj : List (String × Json) → Json

/-- Field lookup in an association list of JSON object fields. -/
def Json.getFieldAux : List (String × Json) → String → Json
  | [], _ => .null
  | (k, v) :: rest, key => if k = key then v else Json.getFieldAux rest key

/-- Property access `j.key` on a JSON value: the field's value on objects that
have it, `null` (modelling `undefined`) otherwise. -/
def Json.getField : Json → String → Json
  | .obj fields, key => Json.getFieldAux fields key
  | _, _ => .null

/-- Outcome of an `await fetch(...)` call as observed by the frontend:
either the promise rejects (network failure), or an HTTP response arrives,
carrying its `ok` flag, `statusText`, and parsed JSON body. -/
inductive FetchOutcome where
  | failure (err : String)
  | success (ok : Bool) (statusText : String) (body : Json)

/-- The repeated CrawlerManager data-retrieval pattern
(`CrawlerManager.ts`): `fetch`; if `!response.ok` throw an Error built from
the given message and `response.statusText`; otherwise return
`response.json()`.  The catch block only logs and rethrows, so the thrown
error propagates unchanged. -/
def fetchJsonOrThrow (errText : String) : FetchOutcome → Except String Json
  | .failure err => .error err
  | .success ok statusText body =>
      if ok then .ok body else .error (errText ++ statusText)

/-- `CrawlerManager.getSessionData` (`CrawlerManager.ts:208-222`),
endpoint `/api/crawler/session/:id`. -/
def CrawlerManager.getSessionData : FetchOutcome → Except String Json :=
  fetchJsonOrThrow "Failed to get session data: "

/-- `CrawlerManager.getExtractedLinks` (`CrawlerManager.ts:224-238`),
endpoint `/api/crawler/links`. -/
def CrawlerManager.getExtractedLinks : FetchOutcome → Except String Json :=
  fetchJsonOrThrow "Failed to get extracted links: "

/-- `CrawlerManager.getExtractedEmails` (`CrawlerManager.ts:240-254`),
endpoint `/api/crawler/emails`. -/
def CrawlerManager.getExtractedEmails : FetchOutcome → Except String Json :=
  fetchJsonOrThrow "Failed to get extracted emails: "

/-- `CrawlerManager.getExtractedFiles` (`CrawlerManager.ts:256-270`),
endpoint `/api/crawler/files`. -/
def CrawlerManager.getExtractedFiles : FetchOutcome → Except String Json :=
  fetchJsonOrThrow "Failed to get extracted files: "

/-- `CrawlerManager.getDetectedTechnologies` (`CrawlerManager.ts:272-286`),
endpoint `/api/crawler/technologies`. -/
def CrawlerManager.getDetectedTechnologies : FetchOutcome → Except String Json :=
  fetchJsonOrThrow "Failed to get detected technologies: "

/-- `CrawlerManager.getVulnerabilities` (`CrawlerManager.ts:288-302`),
endpoint `/api/crawler/vulnerabilities`. -/
def CrawlerManager.getVulnerabilities : FetchOutcome → Except String Json :=
  fetchJsonOrThrow "Failed to get vulnerabilities: "

/-- `CrawlerManager.getSecrets` (`CrawlerManager.ts:304-318`),
endpoint `/api/crawler/secrets`. -/
def CrawlerManager.getSecrets : FetchOutcome → Except String Json :=
  fetchJsonOrThrow "Failed to get secrets: "

/-- `CrawlerManager.getStatistics` (`CrawlerManager.ts:320-334`),
endpoint `/api/crawler/statistics`. -/
def CrawlerManager.getStatistics : FetchOutcome → Except String Json :=
  fetchJsonOrThrow "Failed to get statistics: "

/-- `ProxyManager.startProxy` (`ProxyManager.ts:82-85`): a bare
`await fetch(...)` with no `response.ok` inspection, so it resolves for any
HTTP response and rejects only when the fetch itself fails. -/
def ProxyManager.startProxy : FetchOutcome → Except String Unit
  | .failure err => .error err
  | .success _ _ _ => .ok ()

/-- `ProxyManager.stopProxy` (`ProxyManager.ts:87-90`): same bare-fetch
shape as `startProxy`. -/
def ProxyManager.stopProxy : FetchOutcome → Except String Unit
  | .failure err => .error err
  | .success _ _ _ => .ok ()

/-- `ProxyManager.getInitialTraffic` (`ProxyManager.ts:92-98`): throws
`Failed to fetch initial traffic` when the response is not ok. -/
def ProxyManager.getInitialTraffic : FetchOutcome → Except String Json
  | .failure err => .error err
  | .success ok _ body =>
      if ok then .ok body else .error "Failed to fetch initial traffic"

/-- `ProxyManager.clearTraffic` (`ProxyManager.ts:100-106`): throws
`Failed to clear traffic` when the response is not ok. -/
def ProxyManager.clearTraffic : FetchOutcome → Except String Json
  | .failure err => .error err
  | .success ok _ body =>
      if ok then .ok body else .error "Failed to clear traffic"

/-- The App-level state touched by `handleClearTraffic`: the `traffic` list
and the `selectedRequest` React state. -/
structure AppState where
  traffic : List Json
  selectedRequest : Option Json

/-- `App.handleClearTraffic` (App view embedded in `ReconManager.ts:479-487`):
`await proxyManager.clearTraffic()`, then on resolution clear both pieces of
state; the catch branch only logs, leaving the state untouched. -/
def App.handleClearTraffic (st : AppState) (o : FetchOutcome) : AppState :=
  match ProxyManager.clearTraffic o with
  | .ok _ => { st with traffic := [], selectedRequest := none }
  | .error _ => st

/-- State of a raw-WebSocket manager (CrawlerManager, ReconManager,
CartographerManager all share this code shape verbatim): the `isConnected`
flag, whether a WebSocket object currently exists and is not closed, and the
number of reconnection timers currently scheduled. -/
structure WsManagerState where
  isConnected : Bool
  socketLive : Bool
  pendingReconnects : Nat
deriving DecidableEq

/-- Events a raw-WebSocket manager reacts to: its socket's `onopen`,
its socket's `onclose`, and the firing of a scheduled reconnect timer. -/
inductive WsEvent where
  | wsOpen
  | wsClose
  | timerFire

/-- `connectWebSocket` (`CrawlerManager.ts:114-151`, `ReconManager.ts:93-130`,
`CartographerManager.ts:132-169`): create a new `WebSocket` object and attach
handlers; at the level of this model a live socket now exists. -/
def WsManager.connectWebSocket (s : WsManagerState) : WsManagerState :=
  { s with socketLive := true }

/-- The constructor of each raw-WebSocket manager immediately calls
`connectWebSocket` (`CrawlerManager.ts:110-112` and twins). -/
def WsManager.init : WsManagerState :=
  WsManager.connectWebSocket
    { isConnected := false, socketLive := false, pendingReconnects := 0 }

/-- The `setTimeout` delay used by the reconnection logic
(`CrawlerManager.ts:128-132` and twins). -/
def WsManager.reconnectDelayMs : Nat := 3000

/-- One step of a raw-WebSocket manager.  The boolean output records whether
the step invoked `connectWebSocket` (a reconnection attempt).
`onclose` sets `isConnected = false` and schedules one reconnect timer;
a firing timer reconnects exactly when `!this.isConnected`
(`CrawlerManager.ts:123-133` and twins). -/
def WsManager.step (s : WsManagerState) : WsEvent → WsManagerState × Bool
  | .wsOpen => ({ s with isConnected := true }, false)
  | .wsClose =>
      ({ s with isConnected := false, socketLive := false,
                pendingReconnects := s.pendingReconnects + 1 }, false)
  | .timerFire =>
      if s.isConnected then
        ({ s with pendingReconnects := s.pendingReconnects - 1 }, false)
      else
        (WsManager.connectWebSocket
          { s with pendingReconnects := s.pendingReconnects - 1 }, true)

/-- An event is enabled when its trigger can actually occur: socket events
need a live socket, a timer can only fire while one is scheduled. -/
def WsManager.enabled (s : WsManagerState) : WsEvent → Prop
  | .wsOpen => s.socketLive = true
  | .wsClose => s.socketLive = true
  | .timerFire => 0 < s.pendingReconnects

/-- States of a raw-WebSocket manager reachable from construction via
enabled events. -/
inductive WsManager.Reachable : WsManagerState → Prop where
  | init : WsManager.Reachable WsManager.init
  | step {s : WsManagerState} {e : WsEvent} :
      WsManager.Reachable s → WsManager.enabled s e →
      WsManager.Reachable (WsManager.step s e).1

/-- The four callback arrays held by `CrawlerManager`
(`CrawlerManager.ts:104-108`); callbacks are identified by opaque ids. -/
structure CrawlerCallbacks where
  entryCallbacks : List Nat
  sessionCallbacks : List Nat
  statisticsCallbacks : List Nat
  errorCallbacks : List Nat

/-- Which callback array an invocation went to. -/
inductive CallbackKind where
  | entry
  | session
  | statistics
  | error
deriving DecidableEq

/-- One callback invocation: which array, which registered callback, and the
argument it was applied to. -/
structure Invocation where
  kind : CallbackKind
  callback : Nat
  arg : Json

/-- A parsed WebSocket message as seen by `handleWebSocketMessage`: its
`type` field and its `data` payload. -/
structure WsMessage where
  type : String
  data : Json

/-- `CrawlerManager.notifyEntry` (`CrawlerManager.ts:388-390`): invoke every
registered entry callback on the entry. -/
def CrawlerManager.notifyEntry (cbs : CrawlerCallbacks) (entry : Json) :
    List Invocation :=
  cbs.entryCallbacks.map (fun c => ⟨.entry, c, entry⟩)

/-- `CrawlerManager.notifySession` (`CrawlerManager.ts:392-394`). -/
def CrawlerManager.notifySession (cbs : CrawlerCallbacks) (session : Json) :
    List Invocation :=
  cbs.sessionCallbacks.map (fun c => ⟨.session, c, session⟩)

/-- `CrawlerManager.notifyStatistics` (`CrawlerManager.ts:396-398`). -/
def CrawlerManager.notifyStatistics (cbs : CrawlerCallbacks) (stats : Json) :
    List Invocation :=
  cbs.statisticsCallbacks.map (fun c => ⟨.statistics, c, stats⟩)

/-- `CrawlerManager.notifyError` (`CrawlerManager.ts:400-402`). -/
def CrawlerManager.notifyError (cbs : CrawlerCallbacks) (err : Json) :
    List Invocation :=
  cbs.errorCallbacks.map (fun c => ⟨.error, c, err⟩)

/-- `CrawlerManager.handleWebSocketMessage` (`CrawlerManager.ts:153-168`):
a `switch (data.type)` dispatching to the notify helpers; the `crawler_error`
case passes `data.data.message`; an unmatched type falls through doing
nothing.  The handler never modifies the callback arrays, which the model
makes explicit by returning them unchanged alongside the invocations. -/
def CrawlerManager.handleWebSocketMessage (cbs : CrawlerCallbacks)
    (msg : WsMessage) : CrawlerCallbacks × List Invocation :=
  if msg.type = "traffic_analyzed" then
    (cbs, CrawlerManager.notifyEntry cbs msg.data)
  else if msg.type = "session_complete" then
    (cbs, CrawlerManager.notifySession cbs msg.data)
  else if msg.type = "statistics_update" then
    (cbs, CrawlerManager.notifyStatistics cbs msg.data)
  else if msg.type = "crawler_error" then
    (cbs, CrawlerManager.notifyError cbs (msg.data.getField "message"))
  else
    (cbs, [])

/-- A connection opened by a manager's constructor: a raw WebSocket or a
Socket.IO client connection. -/
inductive ConnEffect where
  | openWebSocket (url : String)
  | openSocketIo (url : String)
deriving DecidableEq

/-- `CrawlerManager`'s constructor calls `connectWebSocket`, which opens
`ws://localhost:8081` (`CrawlerManager.ts:110-116`). -/
def CrawlerManager.constructorEffects : List ConnEffect :=
  [.openWebSocket "ws://localhost:8081"]

/-- `ReconManager`'s constructor opens `ws://localhost:8081`
(`ReconManager.ts:89-95`). -/
def ReconManager.constructorEffects : List ConnEffect :=
  [.openWebSocket "ws://localhost:8081"]

/-- `CartographerManager`'s constructor opens `ws://localhost:8081`
(`CartographerManager.ts:128-134`). -/
def CartographerManager.constructorEffects : List ConnEffect :=
  [.openWebSocket "ws://localhost:8081"]

/-- `ProxyManager`'s constructor opens a Socket.IO connection to
`http://localhost:8000` (`ProxyManager.ts:35-42`). -/
def ProxyManager.constructorEffects : List ConnEffect :=
  [.openSocketIo "http://localhost:8000"]

/-- `ReplayForgeManager` (`ReplayForgeManager.ts:31-57`) declares no
constructor and opens no connection: it is a plain collection of `fetch`
wrappers. -/
def ReplayForgeManager.constructorEffects : List ConnEffect := []

/-- `RaiderManager` (class embedded in `ReconManager.ts:303-327`) declares no
constructor and opens no connection. -/
def RaiderManager.constructorEffects : List ConnEffect := []

/-- `PortalManager` (`PortalManager.ts:20-66`) declares no constructor and
opens no connection. -/
def PortalManager.constructorEffects : List ConnEffect := []

/-- `CrawlerManager`'s event-subscription methods, each pushing onto a
callback array (`CrawlerManager.ts:371-385`). -/
def CrawlerManager.callbackRegistrations : List String :=
  ["onEntry", "onSession", "onStatistics", "onError"]

/-- `ReconManager`'s event-subscription methods
(`ReconManager.ts:251-261`). -/
def ReconManager.callbackRegistrations : List String :=
  ["onProgress", "onCompletion", "onError"]

/-- `CartographerManager`'s event-subscription methods
(`CartographerManager.ts:332-345`). -/
def CartographerManager.callbackRegistrations : List String :=
  ["onMapUpdate", "onNodeUpdate", "onAnalysis", "onError"]

/-- `ProxyManager`'s callback-registration points: its public settable
handler fields (`ProxyManager.ts:29-33`). -/
def ProxyManager.callbackRegistrations : List String :=
  ["onStatusUpdate", "onNewTraffic", "onError", "onRaiderResult",
   "onRaiderStatus"]

/-- `ReplayForgeManager` exposes no callback registration of any kind. -/
def ReplayForgeManager.callbackRegistrations : List String := []

/-- `RaiderManager` exposes no callback registration of any kind. -/
def RaiderManager.callbackRegistrations : List String := []

/-- `PortalManager` exposes no callback registration of any kind. -/
def PortalManager.callbackRegistrations : List String := []

/-- Splitting a character list at a separator, accumulating the current
segment; helper for `jsSplit`. -/
def jsSplitChars (sep : Char) : List Char → String × List String
  | [] => ("", [])
  | c :: cs =>
      let r := jsSplitChars sep cs
      if c = sep then ("", r.1 :: r.2)
      else (String.mk (c :: r.1.data), r.2)

/-- JavaScript `s.split(sep)` for a single-character separator: every
maximal (possibly empty) segment between separators, so `"".split(sep)`
is `[""]` and a trailing separator yields a trailing empty segment. -/
def jsSplit (sep : Char) (s : String) : List String :=
  let r := jsSplitChars sep s.data
  r.1 :: r.2

/-- JavaScript `s.trim()`: strip leading and trailing whitespace. -/
def jsTrim (s : String) : String :=
  String.mk
    (((s.data.dropWhile Char.isWhitespace).reverse.dropWhile
        Char.isWhitespace).reverse)

/-- `SendRequestData` (`ReplayForgeManager.ts:12-17`): the editable request
shape passed from Replay Forge to Raider. -/
structure SendRequestData where
  method : String
  url : String
  headers : List (String × String)
  body : String
deriving DecidableEq

/-- `AttackConfig` (RaiderManager section of `ReconManager.ts:292-295`). -/
structure AttackConfig where
  payloads : List String
deriving DecidableEq

/-- `RaiderAttackRequest` (RaiderManager section of `ReconManager.ts:297-301`).
In the TypeScript source `attack_type` has the union type `'sniper'`; here it
is a string constrained by `RaiderManager.wfAttackRequest`. -/
structure RaiderAttackRequest where
  attack_type : String
  base_request_template : SendRequestData
  config : AttackConfig
deriving DecidableEq

/-- The members of the `attack_type` union type in `RaiderAttackRequest`
(`ReconManager.ts:298`, comment: only sniper is supported for now). -/
def RaiderManager.attackTypeValues : List String := ["sniper"]

/-- An attack request is accepted by `RaiderManager.launchAttack` when it is
well-typed against the `RaiderAttackRequest` interface, i.e. its
`attack_type` is a member of the union type. -/
def RaiderManager.wfAttackRequest (r : RaiderAttackRequest) : Prop :=
  r.attack_type ∈ RaiderManager.attackTypeValues

/-- `RaiderResultEvent` (`ProxyManager.ts:12-19`): one row of the Raider
results table. -/
structure RaiderResultEvent where
  attack_id : String
  request_number : Int
  payload : String
  status : Int
  length : Int
  duration : Int
deriving DecidableEq

/-- The Raider component state touched by `handleLaunchAttack`
(`Raider.tsx`, `src/unnamed/part_008:16-20`). -/
structure RaiderState where
  baseRequest : Option SendRequestData
  payloads : String
  activeAttackId : Option String
  isAttacking : Bool
  results : List RaiderResultEvent
deriving DecidableEq

/-- Observable outcome of the synchronous prefix of `handleLaunchAttack`:
either an alert message, or a launched attack request. -/
inductive LaunchStep where
  | alerted (msg : String)
  | launched (attackData : RaiderAttackRequest)
deriving DecidableEq

/-- `Raider.handleLaunchAttack` (`src/unnamed/part_008:64-87`), up to the
`await raiderManager.launchAttack` call: guard on the base request, build
`payloadList = payloads.split('\n').filter(p => p.trim() !== '')`, guard on
it being non-empty, then build the sniper attack request and set
`isAttacking = true`, `results = []`. -/
def Raider.handleLaunchAttack (st : RaiderState) : RaiderState × LaunchStep :=
  match st.baseRequest with
  | none => (st, .alerted "Base request is not set.")
  | some baseRequest =>
      let payloadList := (jsSplit '\n' st.payloads).filter
        (fun p => jsTrim p != "")
      if payloadList = [] then (st, .alerted "Payload list is empty.")
      else
        ({ st with isAttacking := true, results := [] },
         .launched { attack_type := "sniper",
                     base_request_template := baseRequest,
                     config := { payloads := payloadList } })

/-- Sort direction of the Raider results table
(`src/unnamed/part_008:23`). -/
inductive SortDirection where
  | asc
  | desc
deriving DecidableEq

/-- The sortable columns: the keys of `RaiderResultEvent`. -/
inductive RaiderResultKey where
  | attack_id
  | request_number
  | payload
  | status
  | length
  | duration
deriving DecidableEq

/-- The `sortConfig` state of the Raider component
(`src/unnamed/part_008:23`). -/
structure SortConfig where
  key : RaiderResultKey
  direction : SortDirection
deriving DecidableEq

/-- A JavaScript value read out of a result row: a number or a string. -/
inductive JsValue where
  | num (n : Int)
  | str (s : String)
deriving DecidableEq

/-- Dynamic property access `r[key]` on a `RaiderResultEvent`. -/
def RaiderResultEvent.get (r : RaiderResultEvent) : RaiderResultKey → JsValue
  | .attack_id => .str r.attack_id
  | .request_number => .num r.request_number
  | .payload => .str r.payload
  | .status => .num r.status
  | .length => .num r.length
  | .duration => .num r.duration

/-- JavaScript `<` on two values of the same primitive type (the only case
the Raider comparator can reach, since both sides project the same key). -/
def JsValue.lt : JsValue → JsValue → Bool
  | .num a, .num b => decide (a < b)
  | .str a, .str b => decide (a < b)
  | _, _ => false

/-- The comparator passed to `sortableItems.sort`
(`src/unnamed/part_008:103-107`): `-1`/`1`/`0` by `<`, `>`, with the sign
flipped for descending order. -/
def Raider.compareBy (cfg : SortConfig) (a b : RaiderResultEvent) : Int :=
  if JsValue.lt (a.get cfg.key) (b.get cfg.key) then
    (if cfg.direction = .asc then -1 else 1)
  else if JsValue.lt (b.get cfg.key) (a.get cfg.key) then
    (if cfg.direction = .asc then 1 else -1)
  else 0

/-- `sortedResults` (`src/unnamed/part_008:100-110`): copy the results with
`[...results]`, then, when a sort configuration is set, sort the copy with
the comparator; JavaScript's `Array.prototype.sort` is a stable sort, which
the model renders as a stable merge sort ordered by `comparator ≤ 0`. -/
def Raider.sortedResults (results : List RaiderResultEvent)
    (sortConfig : Option SortConfig) : List RaiderResultEvent :=
  match sortConfig with
  | none => results
  | some cfg =>
      results.mergeSort (fun a b => decide (Raider.compareBy cfg a b ≤ 0))

/-- `requestSort` (`src/unnamed/part_008:112-118`): direction becomes `desc`
exactly when the same key is currently sorted ascending, otherwise `asc`. -/
def Raider.requestSort (sortConfig : Option SortConfig)
    (key : RaiderResultKey) : SortConfig :=
  let direction : SortDirection :=
    match sortConfig with
    | some cfg =>
        if cfg.key = key ∧ cfg.direction = .asc then .desc else .asc
    | none => .asc
  ⟨key, direction⟩

/-- How a renderer-facing API entry talks to the main process:
`ipcRenderer.invoke` (request/response) or `ipcRenderer.on` (listener). -/
inductive IpcKind where
  | invoke
  | on
deriving DecidableEq

/-- One entry of the preload's `electronAPI` object: its exposed name, its
mechanism, and the IPC channel it uses. -/
structure IpcApiEntry where
  name : String
  kind : IpcKind
  channel : String
deriving DecidableEq

/-- The `electronAPI` object exposed to the renderer by the preload script
(`preload.ts`, `src/unnamed/part_012:257-267`). -/
def electronAPI : List IpcApiEntry :=
  [⟨"getAppVersion", .invoke, "get-app-version"⟩,
   ⟨"showSaveDialog", .invoke, "show-save-dialog"⟩,
   ⟨"onMenuNewProject", .on, "menu-new-project"⟩,
   ⟨"onMenuImportTraffic", .on, "menu-import-traffic"⟩,
   ⟨"onMenuStartProxy", .on, "menu-start-proxy"⟩,
   ⟨"onMenuStopProxy", .on, "menu-stop-proxy"⟩,
   ⟨"onMenuClearHistory", .on, "menu-clear-history"⟩]

/-- What the main process answers an invoke channel with. -/
inductive IpcResponse where
  | appVersion
  | saveDialogResult
deriving DecidableEq

/-- The `ipcMain.handle` registrations made by `InterceptorGUI.setupIPC`
(`main.ts:113-122`): `get-app-version` answers with `app.getVersion()`,
`show-save-dialog` shows a native save dialog and returns its result. -/
def InterceptorGUI.ipcHandlers : List (String × IpcResponse) :=
  [("get-app-version", .appVersion),
   ("show-save-dialog", .saveDialogResult)]

/-- The manager classes named in the spec's component list. -/
inductive SpecManager where
  | proxy
  | crawler
  | recon
  | replayForge
  | raider
  | cartographer
  | portal
deriving DecidableEq

/-- Connections opened when each listed manager is constructed. -/
def SpecManager.constructorEffects : SpecManager → List ConnEffect
  | .proxy => ProxyManager.constructorEffects
  | .crawler => CrawlerManager.constructorEffects
  | .recon => ReconManager.constructorEffects
  | .replayForge => ReplayForgeManager.constructorEffects
  | .raider => RaiderManager.constructorEffects
  | .cartographer => CartographerManager.constructorEffects
  | .portal => PortalManager.constructorEffects

/-- Callback-registration points exposed by each listed manager. -/
def SpecManager.callbackRegistrations : SpecManager → List String
  | .proxy => ProxyManager.callbackRegistrations
  | .crawler => CrawlerManager.callbackRegistrations
  | .recon => ReconManager.callbackRegistrations
  | .replayForge => ReplayForgeManager.callbackRegistrations
  | .raider => RaiderManager.callbackRegistrations
  | .cartographer => CartographerManager.callbackRegistrations
  | .portal => PortalManager.callbackRegistrations

/-- A list filter is non-empty exactly when some element satisfies the
predicate. -/
theorem filter_ne_nil_iff_exists {α : Type} {p : α → Bool} {l : List α} :
    l.filter p ≠ [] ↔ ∃ x ∈ l, p x = true := by
  induction l with
  | nil => simp
  | cons a l ih =>
      by_cases h : p a <;> simp [List.filter_cons, h, ih]

/-- Claim C1, counterexample: `ReplayForgeManager` is named in the spec's
component list, yet its construction opens no WebSocket or Socket.IO
connection and the class exposes no callback-registration method; the same
holds for `RaiderManager` and `PortalManager`. -/
theorem C1_counterexample :
    SpecManager.constructorEffects .replayForge = [] ∧
    SpecManager.callbackRegistrations .replayForge = [] ∧
    SpecManager.constructorEffects .raider = [] ∧
    SpecManager.callbackRegistrations .raider = [] ∧
    SpecManager.constructorEffects .portal = [] ∧
    SpecManager.callbackRegistrations .portal = [] :=
  ⟨rfl, rfl, rfl, rfl, rfl, rfl⟩

/-- Claim C1 (amended): among the managers named in the spec's component
list, exactly ProxyManager, CrawlerManager, ReconManager and
CartographerManager open a WebSocket (or Socket.IO) connection on
construction and expose callback-registration points; ReplayForgeManager,
RaiderManager and PortalManager are plain fetch wrappers with neither. -/
theorem C1_amended :
    ∀ m : SpecManager,
      (m.constructorEffects ≠ [] ∧ m.callbackRegistrations ≠ []) ↔
        (m = .proxy ∨ m = .crawler ∨ m = .recon ∨ m = .cartographer) := by
  intro m
  cases m <;> decide

/-- Witness for the amended claim C1, instantiated at CrawlerManager. -/
theorem C1_amended_witness :
    SpecManager.constructorEffects .crawler ≠ [] ∧
    SpecManager.callbackRegistrations .crawler ≠ [] :=
  (C1_amended SpecManager.crawler).mpr (Or.inr (Or.inl rfl))

/-- Claim C4, counterexample: the `attack_type` union type of
`RaiderAttackRequest` does not admit `pitchfork` or `cluster-bomb`, so the
attack-request interface does not permit those attack kinds. -/
theorem C4_counterexample :
    "pitchfork" ∉ RaiderManager.attackTypeValues ∧
    "cluster-bomb" ∉ RaiderManager.attackTypeValues := by
  decide

/-- Claim C4 (amended): the Raider attack-request interface permits only the
`sniper` attack type: every attack request accepted by
`RaiderManager.launchAttack` has `attack_type = "sniper"`, and every attack
the Raider component launches is well-typed against that interface. -/
theorem C4_amended :
    (∀ r : RaiderAttackRequest, RaiderManager.wfAttackRequest r →
       r.attack_type = "sniper") ∧
    (∀ st st' a, Raider.handleLaunchAttack st = (st', LaunchStep.launched a) →
       RaiderManager.wfAttackRequest a) := by
  constructor
  · intro r h
    simpa [RaiderManager.wfAttackRequest,
      RaiderManager.attackTypeValues] using h
  · intro st st' a h
    unfold Raider.handleLaunchAttack at h
    cases hbr : st.baseRequest with
    | none => simp [hbr] at h
    | some br =>
        simp only [hbr] at h
        split at h
        · simp at h
        · simp only [Prod.mk.injEq, LaunchStep.launched.injEq] at h
          obtain ⟨-, h2⟩ := h
          subst h2
          simp [RaiderManager.wfAttackRequest,
            RaiderManager.attackTypeValues]

/-- Witness for the amended claim C4 at a concrete sniper request. -/
theorem C4_amended_witness :
    ({ attack_type := "sniper",
       base_request_template := ⟨"GET", "http://localhost:8000", [], ""⟩,
       config := ⟨["admin"]⟩ } : RaiderAttackRequest).attack_type =
      "sniper" :=
  C4_amended.1 _
    (show "sniper" ∈ RaiderManager.attackTypeValues by decide)

/-- Claim C5: every data-retrieval method of CrawlerManager returns exactly
the parsed JSON body of the backend response when the response is ok, and
throws exactly when the response is not ok (with the method's message and
the status text) or when the fetch itself fails (rethrowing the failure). -/
theorem C5_getters (st : String) (b : Json) (e : String) :
    (CrawlerManager.getSessionData (.success true st b) = .ok b ∧
     CrawlerManager.getExtractedLinks (.success true st b) = .ok b ∧
     CrawlerManager.getExtractedEmails (.success true st b) = .ok b ∧
     CrawlerManager.getExtractedFiles (.success true st b) = .ok b ∧
     CrawlerManager.getDetectedTechnologies (.success true st b) = .ok b ∧
     CrawlerManager.getVulnerabilities (.success true st b) = .ok b ∧
     CrawlerManager.getSecrets (.success true st b) = .ok b ∧
     CrawlerManager.getStatistics (.success true st b) = .ok b) ∧
    (CrawlerManager.getSessionData (.success false st b) =
       .error ("Failed to get session data: " ++ st) ∧
     CrawlerManager.getExtractedLinks (.success false st b) =
       .error ("Failed to get extracted links: " ++ st) ∧
     CrawlerManager.getExtractedEmails (.success false st b) =
       .error ("Failed to get extracted emails: " ++ st) ∧
     CrawlerManager.getExtractedFiles (.success false st b) =
       .error ("Failed to get extracted files: " ++ st) ∧
     CrawlerManager.getDetectedTechnologies (.success false st b) =
       .error ("Failed to get detected technologies: " ++ st) ∧
     CrawlerManager.getVulnerabilities (.success false st b) =
       .error ("Failed to get vulnerabilities: " ++ st) ∧
     CrawlerManager.getSecrets (.success false st b) =
       .error ("Failed to get secrets: " ++ st) ∧
     CrawlerManager.getStatistics (.success false st b) =
       .error ("Failed to get statistics: " ++ st)) ∧
    (CrawlerManager.getSessionData (.failure e) = .error e ∧
     CrawlerManager.getExtractedLinks (.failure e) = .error e ∧
     CrawlerManager.getExtractedEmails (.failure e) = .error e ∧
     CrawlerManager.getExtractedFiles (.failure e) = .error e ∧
     CrawlerManager.getDetectedTechnologies (.failure e) = .error e ∧
     CrawlerManager.getVulnerabilities (.failure e) = .error e ∧
     CrawlerManager.getSecrets (.failure e) = .error e ∧
     CrawlerManager.getStatistics (.failure e) = .error e) :=
  ⟨⟨rfl, rfl, rfl, rfl, rfl, rfl, rfl, rfl⟩,
   ⟨rfl, rfl, rfl, rfl, rfl, rfl, rfl, rfl⟩,
   ⟨rfl, rfl, rfl, rfl, rfl, rfl, rfl, rfl⟩⟩

/-- Claim C6: the preload's `electronAPI` exposes exactly the invoke calls
`getAppVersion` (channel `get-app-version`) and `showSaveDialog` (channel
`show-save-dialog`) plus the five menu-event listeners, and the main
process answers those two channels with the application version and the
native save-dialog result respectively; every exposed invoke channel has a
main-process handler. -/
theorem C6_ipc :
    ((electronAPI.filter (fun en => en.kind == IpcKind.invoke)).map
        (fun en => (en.name, en.channel)) =
      [("getAppVersion", "get-app-version"),
       ("showSaveDialog", "show-save-dialog")]) ∧
    InterceptorGUI.ipcHandlers.lookup "get-app-version" =
      some .appVersion ∧
    InterceptorGUI.ipcHandlers.lookup "show-save-dialog" =
      some .saveDialogResult ∧
    ((electronAPI.filter (fun en => en.kind == IpcKind.on)).map
        (fun en => en.channel) =
      ["menu-new-project", "menu-import-traffic", "menu-start-proxy",
       "menu-stop-proxy", "menu-clear-history"]) ∧
    InterceptorGUI.ipcHandlers.map Prod.fst =
      (electronAPI.filter (fun en => en.kind == IpcKind.invoke)).map
        (fun en => en.channel) := by
  refine ⟨rfl, rfl, rfl, rfl, rfl⟩

/-- Claim C7: clearing traffic history updates the App state reactively and
atomically on the outcome of the backend call: when
`proxyManager.clearTraffic` resolves the traffic list becomes empty and the
selected request becomes null, and when it rejects both stay unchanged. -/
theorem C7_clear_traffic (st : AppState) (o : FetchOutcome) :
    (∀ b, ProxyManager.clearTraffic o = .ok b →
       App.handleClearTraffic st o =
         { traffic := [], selectedRequest := none }) ∧
    (∀ e, ProxyManager.clearTraffic o = .error e →
       App.handleClearTraffic st o = st) := by
  constructor <;> intro x h <;> simp [App.handleClearTraffic, h]

/-- Witness for claim C7 at a concrete resolved backend call. -/
theorem C7_clear_traffic_witness :
    App.handleClearTraffic ⟨[Json.null], some Json.null⟩
      (.success true "OK" (Json.obj [("cleared_items", Json.num 3)])) =
      { traffic := [], selectedRequest := none } :=
  (C7_clear_traffic ⟨[Json.null], some Json.null⟩
      (.success true "OK" (Json.obj [("cleared_items", Json.num 3)]))).1
    (Json.obj [("cleared_items", Json.num 3)]) rfl

/-- Claim C8: `startProxy` and `stopProxy` resolve for every HTTP response
the backend returns, ok or not (they never inspect `response.ok`, rejecting
only when the fetch itself fails), whereas `getInitialTraffic` and
`clearTraffic` throw exactly when the response is not ok. -/
theorem C8_proxy_errors (ok : Bool) (st : String) (b : Json) (e : String) :
    ProxyManager.startProxy (.success ok st b) = .ok () ∧
    ProxyManager.stopProxy (.success ok st b) = .ok () ∧
    ProxyManager.startProxy (.failure e) = .error e ∧
    ProxyManager.stopProxy (.failure e) = .error e ∧
    (ok = true →
       ProxyManager.getInitialTraffic (.success ok st b) = .ok b ∧
       ProxyManager.clearTraffic (.success ok st b) = .ok b) ∧
    (ok = false →
       ProxyManager.getInitialTraffic (.success ok st b) =
         .error "Failed to fetch initial traffic" ∧
       ProxyManager.clearTraffic (.success ok st b) =
         .error "Failed to clear traffic") := by
  refine ⟨rfl, rfl, rfl, rfl, ?_, ?_⟩ <;> rintro rfl <;> exact ⟨rfl, rfl⟩

/-- Witness for claim C8 at a concrete non-ok response. -/
theorem C8_proxy_errors_witness :
    ProxyManager.startProxy
      (.success false "Internal Server Error" Json.null) = .ok () ∧
    ProxyManager.clearTraffic
      (.success false "Internal Server Error" Json.null) =
      .error "Failed to clear traffic" := by
  have h := C8_proxy_errors false "Internal Server Error" Json.null "net"
  exact ⟨h.1, (h.2.2.2.2.2 rfl).2⟩

/-- Reachable states of a raw-WebSocket manager satisfy two invariants: a
connected manager has a live socket, and a manager whose socket is gone
always has a reconnection attempt scheduled. -/
theorem WsManager.reachable_inv {s : WsManagerState}
    (h : WsManager.Reachable s) :
    (s.isConnected = true → s.socketLive = true) ∧
    (s.socketLive = false → 0 < s.pendingReconnects) := by
  induction h with
  | init =>
      refine ⟨fun _ => rfl, fun hc => ?_⟩
      simp [WsManager.init, WsManager.connectWebSocket] at hc
  | step hr he ih =>
      rename_i s e
      obtain ⟨ih1, ih2⟩ := ih
      cases e with
      | wsOpen =>
          simp only [WsManager.enabled] at he
          refine ⟨fun _ => ?_, fun hc => ?_⟩
          · simpa [WsManager.step] using he
          · simp only [WsManager.step] at hc
            simp [he] at hc
      | wsClose =>
          refine ⟨fun hc => ?_, fun _ => ?_⟩
          · simp [WsManager.step] at hc
          · simp [WsManager.step]
      | timerFire =>
          cases hc : s.isConnected with
          | true =>
              refine ⟨fun _ => ?_, fun hl => ?_⟩
              · simp only [WsManager.step, hc, if_true]
                exact ih1 hc
              · simp only [WsManager.step, hc, if_true] at hl
                simp [ih1 hc] at hl
          | false =>
              refine ⟨fun hcc => ?_, fun hl => ?_⟩
              · simp [WsManager.step, hc,
                  WsManager.connectWebSocket] at hcc
              · simp [WsManager.step, hc,
                  WsManager.connectWebSocket] at hl

/-- Claim C2: in every reachable state of a raw-WebSocket manager
(CrawlerManager, ReconManager and CartographerManager share this code
verbatim), a socket close records the manager as disconnected and schedules
exactly one more reconnection timer with a 3000 ms delay; a firing timer
invokes `connectWebSocket` exactly when the manager is still disconnected at
that moment; and no reachable state is left without a live socket and
without a scheduled reconnection attempt. -/
theorem C2_reconnect (s : WsManagerState) (h : WsManager.Reachable s) :
    (WsManager.step s .wsClose).1.isConnected = false ∧
    (WsManager.step s .wsClose).1.pendingReconnects =
      s.pendingReconnects + 1 ∧
    WsManager.reconnectDelayMs = 3000 ∧
    (WsManager.step s .timerFire).2 = !s.isConnected ∧
    (s.socketLive = false → 0 < s.pendingReconnects) := by
  refine ⟨rfl, rfl, rfl, ?_, (WsManager.reachable_inv h).2⟩
  cases hc : s.isConnected <;> simp [WsManager.step, hc]

/-- Witness for claim C2 at the constructed initial manager state. -/
theorem C2_reconnect_witness :
    (WsManager.step WsManager.init .wsClose).1.isConnected = false ∧
    0 < (WsManager.step WsManager.init .wsClose).1.pendingReconnects := by
  have h := C2_reconnect WsManager.init WsManager.Reachable.init
  refine ⟨h.1, ?_⟩
  rw [h.2.1]
  exact Nat.succ_pos _

/-- Claim C3: `CrawlerManager.handleWebSocketMessage` dispatches purely on
the message's `type` field: `traffic_analyzed` invokes exactly the
registered entry callbacks on the `data` payload, `session_complete` the
session callbacks, `statistics_update` the statistics callbacks,
`crawler_error` the error callbacks on `data.message`, and any other type
invokes no callback; the callback arrays are never modified. -/
theorem C3_crawler_dispatch (cbs : CrawlerCallbacks) (msg : WsMessage) :
    (CrawlerManager.handleWebSocketMessage cbs msg).1 = cbs ∧
    (msg.type = "traffic_analyzed" →
       (CrawlerManager.handleWebSocketMessage cbs msg).2 =
         cbs.entryCallbacks.map (fun c => ⟨.entry, c, msg.data⟩)) ∧
    (msg.type = "session_complete" →
       (CrawlerManager.handleWebSocketMessage cbs msg).2 =
         cbs.sessionCallbacks.map (fun c => ⟨.session, c, msg.data⟩)) ∧
    (msg.type = "statistics_update" →
       (CrawlerManager.handleWebSocketMessage cbs msg).2 =
         cbs.statisticsCallbacks.map (fun c => ⟨.statistics, c, msg.data⟩)) ∧
    (msg.type = "crawler_error" →
       (CrawlerManager.handleWebSocketMessage cbs msg).2 =
         cbs.errorCallbacks.map
           (fun c => ⟨.error, c, msg.data.getField "message"⟩)) ∧
    (msg.type ∉ ["traffic_analyzed", "session_complete",
        "statistics_update", "crawler_error"] →
       (CrawlerManager.handleWebSocketMessage cbs msg).2 = []) := by
  refine ⟨?_, ?_, ?_, ?_, ?_, ?_⟩
  · unfold CrawlerManager.handleWebSocketMessage
    split_ifs <;> rfl
  · intro h
    simp [CrawlerManager.handleWebSocketMessage, h,
      CrawlerManager.notifyEntry]
  · intro h
    simp [CrawlerManager.handleWebSocketMessage, h,
      CrawlerManager.notifySession]
  · intro h
    simp [CrawlerManager.handleWebSocketMessage, h,
      CrawlerManager.notifyStatistics]
  · intro h
    simp [CrawlerManager.handleWebSocketMessage, h,
      CrawlerManager.notifyError]
  · intro h
    simp only [List.mem_cons, List.not_mem_nil, or_false, not_or] at h
    obtain ⟨h1, h2, h3, h4⟩ := h
    simp [CrawlerManager.handleWebSocketMessage, h1, h2, h3, h4]

/-- Witness for claim C3: a `crawler_error` message invokes exactly the
registered error callback on the payload's `message` field. -/
theorem C3_crawler_dispatch_witness :
    (CrawlerManager.handleWebSocketMessage ⟨[10], [11], [12], [13]⟩
        ⟨"crawler_error", Json.obj [("message", Json.str "boom")]⟩).2 =
      [⟨CallbackKind.error, 13, Json.str "boom"⟩] := by
  have h := (C3_crawler_dispatch ⟨[10], [11], [12], [13]⟩
      ⟨"crawler_error", Json.obj [("message", Json.str "boom")]⟩).2.2.2.2.1
    rfl
  simpa [Json.getField, Json.getFieldAux] using h

/-- Claim C9: `Raider.handleLaunchAttack` launches an attack exactly when a
base request is set and some payload line is non-empty after trimming; the
launched attack is a sniper on the base request whose `config.payloads` is
the list of payload lines with whitespace-only lines removed, in their
original order (the order-preserving filter), and the component state
changes only by setting `isAttacking` and clearing `results`; when a
precondition fails, only an alert happens and the state is unchanged. -/
theorem C9_launch_attack (st st' : RaiderState) (act : LaunchStep)
    (h : Raider.handleLaunchAttack st = (st', act)) :
    ((∃ a, act = .launched a) ↔
       (st.baseRequest.isSome = true ∧
        ∃ p ∈ jsSplit '\n' st.payloads, jsTrim p ≠ "")) ∧
    (∀ a, act = .launched a →
       a.attack_type = "sniper" ∧
       a.config.payloads =
         (jsSplit '\n' st.payloads).filter (fun p => jsTrim p != "") ∧
       (∃ br, st.baseRequest = some br ∧ a.base_request_template = br) ∧
       st' = { st with isAttacking := true, results := [] }) ∧
    (∀ msg, act = .alerted msg → st' = st) := by
  obtain ⟨obr, pls, aid, att, res⟩ := st
  have hex : (∃ p ∈ jsSplit '\n' pls, jsTrim p ≠ "") ↔
      (jsSplit '\n' pls).filter (fun p => jsTrim p != "") ≠ [] := by
    rw [filter_ne_nil_iff_exists]
    simp [bne_iff_ne]
  cases obr with
  | none =>
      simp only [Raider.handleLaunchAttack] at h
      cases h
      exact ⟨by simp, by simp, fun msg hm => rfl⟩
  | some br =>
      simp only [Raider.handleLaunchAttack] at h
      by_cases hpl :
          (jsSplit '\n' pls).filter (fun p => jsTrim p != "") = []
      · rw [if_pos hpl] at h
        cases h
        exact ⟨by simp [hex, hpl], by simp, fun msg hm => rfl⟩
      · rw [if_neg hpl] at h
        cases h
        refine ⟨by simp [hex, hpl], ?_, by simp⟩
        intro a ha
        simp only [LaunchStep.launched.injEq] at ha
        subst ha
        exact ⟨rfl, rfl, ⟨br, rfl, rfl⟩, rfl⟩

/-- Witness for claim C9: with a base request set and payload text
containing a whitespace-only line, the launch preconditions hold and the
attack is launched. -/
theorem C9_launch_attack_witness :
    ({ baseRequest := some ⟨"GET", "http://localhost:8000/?q=FUZZ", [], ""⟩,
       payloads := "admin\n \nroot", activeAttackId := none,
       isAttacking := false, results := [] } :
        RaiderState).baseRequest.isSome = true ∧
    ∃ p ∈ jsSplit '\n' "admin\n \nroot", jsTrim p ≠ "" := by
  have h := C9_launch_attack
    { baseRequest := some ⟨"GET", "http://localhost:8000/?q=FUZZ", [], ""⟩,
      payloads := "admin\n \nroot", activeAttackId := none,
      isAttacking := false, results := [] }
    { baseRequest := some ⟨"GET", "http://localhost:8000/?q=FUZZ", [], ""⟩,
      payloads := "admin\n \nroot", activeAttackId := none,
      isAttacking := true, results := [] }
    (LaunchStep.launched
      { attack_type := "sniper",
        base_request_template :=
          ⟨"GET", "http://localhost:8000/?q=FUZZ", [], ""⟩,
        config := ⟨["admin", "root"]⟩ })
    (by decide)
  exact h.1.mp ⟨_, rfl⟩

/-- Claim C10: `sortedResults` is always a permutation of the received
results (the embedding, being pure, also cannot mutate the results list);
with no sort configuration it equals the results in arrival order; and
`requestSort` on a key keeps that key and toggles the direction to
descending exactly when the same key was already sorted ascending. -/
theorem C10_sorted_results (results : List RaiderResultEvent)
    (sc : Option SortConfig) (k : RaiderResultKey) :
    (Raider.sortedResults results sc).Perm results ∧
    Raider.sortedResults results none = results ∧
    (Raider.requestSort sc k).key = k ∧
    ((Raider.requestSort sc k).direction = .desc ↔
      ∃ c, sc = some c ∧ c.key = k ∧ c.direction = .asc) := by
  refine ⟨?_, rfl, rfl, ?_⟩
  · cases sc with
    | none => exact List.Perm.refl results
    | some cfg =>
        simpa [Raider.sortedResults] using
          List.mergeSort_perm results
            (fun a b => decide (Raider.compareBy cfg a b ≤ 0))
  · cases sc with
    | none =>
        simp [Raider.requestSort]
    | some cfg =>
        by_cases hc : cfg.key = k ∧ cfg.direction = .asc
        · constructor
          · intro _
            exact ⟨cfg, rfl, hc.1, hc.2⟩
          · intro _
            simp [Raider.requestSort, hc.1, hc.2]
        · constructor
          · intro hd
            exfalso
            simp [Raider.requestSort, hc] at hd
          · rintro ⟨c, hEq, h1, h2⟩
            injection hEq with hEq
            subst hEq
            exact absurd ⟨h1, h2⟩ hc

/-- Witness for claim C10: sorting two concrete rows by status ascending is
a permutation of the input, and re-requesting the same ascending key
toggles to descending. -/
theorem C10_sorted_results_witness :
    (Raider.sortedResults
        [⟨"a1", 1, "admin", 200, 5, 12⟩, ⟨"a1", 2, "root", 404, 3, 9⟩]
        (some ⟨.status, .asc⟩)).Perm
      [⟨"a1", 1, "admin", 200, 5, 12⟩, ⟨"a1", 2, "root", 404, 3, 9⟩] ∧
    (Raider.requestSort (some ⟨.status, .asc⟩) .status).direction =
      SortDirection.desc := by
  have h := C10_sorted_results
    [⟨"a1", 1, "admin", 200, 5, 12⟩, ⟨"a1", 2, "root", 404, 3, 9⟩]
    (some ⟨.status, .asc⟩) RaiderResultKey.status
  exact ⟨h.1, h.2.2.2.mpr ⟨⟨.status, .asc⟩, rfl, rfl, rfl⟩⟩

end Galdr
